import Mathlib

/-! go-smtp: the email dispatch adapter of `main.go`

A shallow embedding of `SendEmail`, `triggerEmail`, `LambdaHandler` and
`httpHandler`.  The process environment, the SMTP transport and standard
output are carried in an explicit `World`; every function that touches one of
them takes a world and returns the world it leaves behind.
-/

namespace GoSmtp

/-! ## Data model -/

/-- Dynamic values held by an `interface{}` of a decoded JSON object: `nil`,
`bool`, `float64` (kept as its 64-bit pattern), `string`, `[]interface{}` and
`map[string]interface{}`. -/
inductive Value where
  | null
  | bool (b : Bool)
  | number (bits : Nat)
  | str (s : String)
  | array (xs : List Value)
  | object (kvs : List (String × Value))

/-- The type `map[string]interface{}` as an association list of its entries. -/
abbrev Event := List (String × Value)

/-- The map index expression `event[key]`: `none` when the key is absent (Go
yields the nil interface), the stored value otherwise. -/
def Event.index (event : Event) (key : String) : Option Value :=
  event.lookup key

/-- The comma-ok type assertion `v.(string)`: `some s` when the dynamic type is
`string` (`ok = true`), `none` otherwise (`ok = false`). -/
def assertString : Option Value → Option String
  | some (Value.str s) => some s
  | _ => none

/-- The struct `Response` of `main.go`. -/
structure Response where
  StatusCode : Int
  Body : String
  deriving DecidableEq, Repr

/-- The value `smtp.PlainAuth(identity, username, password, host)`. -/
structure PlainAuth where
  identity : String
  username : String
  password : String
  host : String
  deriving DecidableEq, Repr

/-- The arguments of one call `smtp.SendMail(addr, a, from, to, msg)`. -/
structure SendMailCall where
  addr : String
  auth : PlainAuth
  sender : String
  recipients : List String
  msg : String
  deriving DecidableEq, Repr

/-- Everything outside the program that it reads or writes: `getenv` is
`os.Getenv` (the empty string for an unset variable), `sendMail` the outcome the
SMTP transport gives to a call (`none` for a nil error, `some cause` for an
error with that text), `sent` the transport calls made so far, `stdout` the
lines printed so far. -/
structure World where
  getenv : String → String
  sendMail : SendMailCall → Option String
  sent : List SendMailCall
  stdout : List String

/-- The call `fmt.Println(line)`. -/
def Println (line : String) (w : World) : World :=
  { w with stdout := w.stdout ++ [line] }

/-- The call `smtp.SendMail`: record the attempt, return the transport's verdict. -/
def smtpSendMail (call : SendMailCall) (w : World) : Option String × World :=
  (w.sendMail call, { w with sent := w.sent ++ [call] })

/-! ## The program -/

/-- Source `SendEmail` (main.go 24-41). -/
def SendEmail (smtpServer smtpPort smtpUser smtpPass fromEmail toEmail subject body : String)
    (w : World) : Option String × World :=
  let msg := "To: " ++ toEmail ++ "\r\n" ++
    "From: " ++ fromEmail ++ "\r\n" ++
    "Subject: " ++ subject ++ "\r\n" ++
    "MIME-Version: 1.0\r\n" ++
    "Content-Type: text/html; charset=\"UTF-8\"\r\n" ++
    "\r\n" ++
    body ++ "\r\n"
  let addr := smtpServer ++ ":" ++ smtpPort
  let auth := PlainAuth.mk "" smtpUser smtpPass smtpServer
  match smtpSendMail ⟨addr, auth, fromEmail, [toEmail], msg⟩ w with
  | (some err, w1) => (some ("failed to send email: " ++ err), w1)
  | (none, w1) => (none, w1)

/-- Source `triggerEmail` (main.go 49-96): the response, the error component
and the world after the call. -/
def triggerEmail (event : Event) (w : World) : (Response × Option String) × World :=
  let fromEmail := w.getenv "MAIL_FROM"
  match assertString (event.index "to") with
  | none => ((⟨400, "Missing 'to' field"⟩, none), w)
  | some toEmail =>
  match assertString (event.index "subject") with
  | none => ((⟨400, "Missing 'subject' field"⟩, none), w)
  | some subject =>
  match assertString (event.index "body") with
  | none => ((⟨400, "Missing 'body' field"⟩, none), w)
  | some body =>
  let smtpServer := w.getenv "MAIL_HOST"
  if smtpServer = "" then
    ((⟨500, "Internal server error"⟩, none), Println "SMTP server not configured" w)
  else
  let smtpPort := w.getenv "MAIL_PORT"
  if smtpPort = "" then
    ((⟨500, "Internal server error"⟩, none), Println "SMTP port not configured" w)
  else
  let smtpUser := w.getenv "MAIL_USERNAME"
  let smtpPass := w.getenv "MAIL_PASSWORD"
  if smtpUser = "" ∨ smtpPass = "" ∨ fromEmail = "" then
    ((⟨500, "Internal server error"⟩, none),
      Println "SMTP username and password not configured" w)
  else
  match SendEmail smtpServer smtpPort smtpUser smtpPass fromEmail toEmail subject body w with
  | (some err, w1) => ((⟨500, "Error sending email"⟩, none), Println err w1)
  | (none, w1) => ((⟨200, "Email sent successfully!"⟩, none), w1)

/-- Source `LambdaHandler` (main.go 44-46); the context may be of any type. -/
def LambdaHandler {Ctx : Type} (_ctx : Ctx) (event : Event) (w : World) :
    (Response × Option String) × World :=
  triggerEmail event w

/-- What `c.JSON(code, gin.H{...})` writes: the status code and the JSON object's
entries. -/
structure HttpReply where
  status : Int
  json : List (String × String)
  deriving DecidableEq, Repr

/-- Source `httpHandler` (main.go 99-114).  `decoded` is the outcome of
`c.ShouldBindJSON(&request)`: `none` for a decode error, `some m` for the decoded
map. -/
def httpHandler (decoded : Option Event) (w : World) : HttpReply × World :=
  match decoded with
  | none => (⟨400, [("message", "invalid request or missing fields")]⟩, w)
  | some request =>
    match triggerEmail request w with
    | ((response, some err), w1) =>
      (⟨response.StatusCode, [("message", response.Body)]⟩, Println err w1)
    | ((response, none), w1) =>
      (⟨response.StatusCode, [("message", response.Body)]⟩, w1)

/-- The message as the specification words it: the five header lines, each
ended by CRLF, a blank line, then the body and nothing after it. -/
def specMessage (toEmail fromEmail subject body : String) : String :=
  "To: " ++ toEmail ++ "\r\n" ++
  "From: " ++ fromEmail ++ "\r\n" ++
  "Subject: " ++ subject ++ "\r\n" ++
  "MIME-Version: 1.0\r\n" ++
  "Content-Type: text/html; charset=\"UTF-8\"\r\n" ++
  "\r\n" ++
  body

/-! ## Sample inputs -/

/-- A complete relay configuration. -/
def fullEnv (key : String) : String :=
  if key = "MAIL_HOST" then "smtp.example.com"
  else if key = "MAIL_PORT" then "587"
  else if key = "MAIL_USERNAME" then "user"
  else if key = "MAIL_PASSWORD" then "secret"
  else if key = "MAIL_FROM" then "noreply@example.com"
  else ""

/-- A world with a complete configuration whose transport accepts every call. -/
def okWorld : World := ⟨fullEnv, fun _ => none, [], []⟩

/-- A world with a complete configuration whose transport refuses every call. -/
def failWorld : World := ⟨fullEnv, fun _ => some "connection refused", [], []⟩

/-- A world with no environment variable set. -/
def bareWorld : World := ⟨fun _ => "", fun _ => none, [], []⟩

/-- A world whose configuration lacks only MAIL_PASSWORD. -/
def noPasswordWorld : World :=
  ⟨fun key => if key = "MAIL_PASSWORD" then "" else fullEnv key, fun _ => none, [], []⟩

/-- The request of the spec's success scenario. -/
def helloEvent : Event :=
  [("to", Value.str "a@b.com"), ("subject", Value.str "Hi"), ("body", Value.str "<p>Hello</p>")]

/-- A request whose three fields are empty strings. -/
def blankEvent : Event :=
  [("to", Value.str ""), ("subject", Value.str ""), ("body", Value.str "")]

/-- The request of the spec's missing-recipient scenario. -/
def noToEvent : Event := [("subject", Value.str "Hi"), ("body", Value.str "x")]

/-! ## Field lookups -/

theorem assertString_of_str {event : Event} {key s : String}
    (h : event.index key = some (Value.str s)) :
    assertString (event.index key) = some s := by
  rw [h]; rfl

theorem assertString_of_not_str {event : Event} {key : String}
    (h : ∀ s, event.index key ≠ some (Value.str s)) :
    assertString (event.index key) = none := by
  cases hv : event.index key with
  | none => rfl
  | some v =>
    cases v with
    | str s => exact absurd hv (h s)
    | _ => rfl

theorem assertString_eq_some {event : Event} {key s : String}
    (h : assertString (event.index key) = some s) :
    event.index key = some (Value.str s) := by
  cases hv : event.index key with
  | none => rw [hv] at h; simp [assertString] at h
  | some v =>
    rw [hv] at h
    cases v <;> simp_all [assertString]

/-! ## Field validation (C1) -/

/-- C1: the fields are checked in the order to, subject, body and the first
failure decides the answer: a `to` that is absent or not a string gives
(400, "Missing 'to' field"); otherwise a bad `subject` gives
(400, "Missing 'subject' field"); otherwise a bad `body` gives
(400, "Missing 'body' field").  Each holds in every world (every relay
configuration, the empty one included), with a nil error and the world
untouched. -/
theorem triggerEmail_missing_fields (event : Event) (w : World) :
    ((∀ s, event.index "to" ≠ some (Value.str s)) →
      triggerEmail event w = ((⟨400, "Missing 'to' field"⟩, none), w)) ∧
    (∀ t, event.index "to" = some (Value.str t) →
      (∀ s, event.index "subject" ≠ some (Value.str s)) →
      triggerEmail event w = ((⟨400, "Missing 'subject' field"⟩, none), w)) ∧
    (∀ t sj, event.index "to" = some (Value.str t) →
      event.index "subject" = some (Value.str sj) →
      (∀ s, event.index "body" ≠ some (Value.str s)) →
      triggerEmail event w = ((⟨400, "Missing 'body' field"⟩, none), w)) := by
  refine ⟨?_, ?_, ?_⟩
  · intro h
    simp only [triggerEmail, assertString_of_not_str h]
  · intro t ht h
    simp only [triggerEmail, assertString_of_str ht, assertString_of_not_str h]
  · intro t sj ht hs h
    simp only [triggerEmail, assertString_of_str ht, assertString_of_str hs,
      assertString_of_not_str h]

/-- Witness of C1 on the spec's scenario (no `to`), on a request whose `subject`
is a number and on a request whose `body` is null. -/
theorem triggerEmail_missing_fields_witness :
    triggerEmail noToEvent bareWorld = ((⟨400, "Missing 'to' field"⟩, none), bareWorld) ∧
    triggerEmail [("to", Value.str "a@b.com"), ("subject", Value.number 7)] okWorld
      = ((⟨400, "Missing 'subject' field"⟩, none), okWorld) ∧
    triggerEmail [("to", Value.str "a@b.com"), ("subject", Value.str "Hi"), ("body", Value.null)]
      failWorld = ((⟨400, "Missing 'body' field"⟩, none), failWorld) :=
  ⟨(triggerEmail_missing_fields noToEvent bareWorld).1
      (by intro s; simp [noToEvent, Event.index, List.lookup]),
   (triggerEmail_missing_fields _ okWorld).2.1 "a@b.com" rfl
      (by intro s; simp [Event.index, List.lookup]),
   (triggerEmail_missing_fields _ failWorld).2.2 "a@b.com" "Hi" rfl rfl
      (by intro s; simp [Event.index, List.lookup])⟩

/-! ## The path after field validation -/

/-- With three string fields, `triggerEmail` is its configuration checks
followed by the send. -/
theorem triggerEmail_of_fields {event : Event} {w : World} {t sj b : String}
    (ht : event.index "to" = some (Value.str t))
    (hs : event.index "subject" = some (Value.str sj))
    (hb : event.index "body" = some (Value.str b)) :
    triggerEmail event w =
      if w.getenv "MAIL_HOST" = "" then
        ((⟨500, "Internal server error"⟩, none), Println "SMTP server not configured" w)
      else if w.getenv "MAIL_PORT" = "" then
        ((⟨500, "Internal server error"⟩, none), Println "SMTP port not configured" w)
      else if w.getenv "MAIL_USERNAME" = "" ∨ w.getenv "MAIL_PASSWORD" = ""
          ∨ w.getenv "MAIL_FROM" = "" then
        ((⟨500, "Internal server error"⟩, none),
          Println "SMTP username and password not configured" w)
      else
        match SendEmail (w.getenv "MAIL_HOST") (w.getenv "MAIL_PORT") (w.getenv "MAIL_USERNAME")
            (w.getenv "MAIL_PASSWORD") (w.getenv "MAIL_FROM") t sj b w with
        | (some err, w1) => ((⟨500, "Error sending email"⟩, none), Println err w1)
        | (none, w1) => ((⟨200, "Email sent successfully!"⟩, none), w1) := by
  simp only [triggerEmail, assertString_of_str ht, assertString_of_str hs,
    assertString_of_str hb]

/-- With three string fields and a complete configuration, `triggerEmail` is
the send followed by the mapping of its outcome. -/
theorem triggerEmail_of_checks {event : Event} {w : World} {t sj b : String}
    (ht : event.index "to" = some (Value.str t))
    (hs : event.index "subject" = some (Value.str sj))
    (hb : event.index "body" = some (Value.str b))
    (hhost : w.getenv "MAIL_HOST" ≠ "") (hport : w.getenv "MAIL_PORT" ≠ "")
    (huser : w.getenv "MAIL_USERNAME" ≠ "") (hpass : w.getenv "MAIL_PASSWORD" ≠ "")
    (hfrom : w.getenv "MAIL_FROM" ≠ "") :
    triggerEmail event w =
      match SendEmail (w.getenv "MAIL_HOST") (w.getenv "MAIL_PORT") (w.getenv "MAIL_USERNAME")
          (w.getenv "MAIL_PASSWORD") (w.getenv "MAIL_FROM") t sj b w with
      | (some err, w1) => ((⟨500, "Error sending email"⟩, none), Println err w1)
      | (none, w1) => ((⟨200, "Email sent successfully!"⟩, none), w1) := by
  rw [triggerEmail_of_fields ht hs hb]
  simp only [hhost, hport, huser, hpass, hfrom, or_self, if_false]

/-- The transport call `SendEmail` makes, and how its verdict is wrapped. -/
theorem SendEmail_eq (smtpServer smtpPort smtpUser smtpPass fromEmail toEmail subject body : String)
    (w : World) :
    SendEmail smtpServer smtpPort smtpUser smtpPass fromEmail toEmail subject body w =
      ((w.sendMail ⟨smtpServer ++ ":" ++ smtpPort, ⟨"", smtpUser, smtpPass, smtpServer⟩,
          fromEmail, [toEmail],
          "To: " ++ toEmail ++ "\r\n" ++ "From: " ++ fromEmail ++ "\r\n" ++
          "Subject: " ++ subject ++ "\r\n" ++ "MIME-Version: 1.0\r\n" ++
          "Content-Type: text/html; charset=\"UTF-8\"\r\n" ++ "\r\n" ++ body ++ "\r\n"⟩).map
          (fun err => "failed to send email: " ++ err),
       { w with sent := w.sent ++ [⟨smtpServer ++ ":" ++ smtpPort,
          ⟨"", smtpUser, smtpPass, smtpServer⟩, fromEmail, [toEmail],
          "To: " ++ toEmail ++ "\r\n" ++ "From: " ++ fromEmail ++ "\r\n" ++
          "Subject: " ++ subject ++ "\r\n" ++ "MIME-Version: 1.0\r\n" ++
          "Content-Type: text/html; charset=\"UTF-8\"\r\n" ++ "\r\n" ++ body ++ "\r\n"⟩] }) := by
  unfold SendEmail smtpSendMail
  cases h : w.sendMail _ <;> simp [h]

/-! ## Configuration checks (C2) -/

/-- C2: with string `to`, `subject` and `body`, as soon as one of MAIL_HOST,
MAIL_PORT, MAIL_USERNAME, MAIL_PASSWORD, MAIL_FROM is the empty string the
result is exactly (500, "Internal server error") with a nil error. -/
theorem triggerEmail_incomplete_config (event : Event) (w : World) (t sj b : String)
    (ht : event.index "to" = some (Value.str t))
    (hs : event.index "subject" = some (Value.str sj))
    (hb : event.index "body" = some (Value.str b))
    (hcfg : w.getenv "MAIL_HOST" = "" ∨ w.getenv "MAIL_PORT" = "" ∨
      w.getenv "MAIL_USERNAME" = "" ∨ w.getenv "MAIL_PASSWORD" = "" ∨
      w.getenv "MAIL_FROM" = "") :
    (triggerEmail event w).1 = (⟨500, "Internal server error"⟩, none) := by
  rw [triggerEmail_of_fields ht hs hb]
  by_cases h1 : w.getenv "MAIL_HOST" = ""
  · simp only [h1, if_true]
  by_cases h2 : w.getenv "MAIL_PORT" = ""
  · simp only [h1, h2, if_true, if_false]
  have h3 : w.getenv "MAIL_USERNAME" = "" ∨ w.getenv "MAIL_PASSWORD" = ""
      ∨ w.getenv "MAIL_FROM" = "" := by
    rcases hcfg with h | h | h
    · exact absurd h h1
    · exact absurd h h2
    · exact h
  simp only [h1, h2, h3, if_true, if_false]

/-- Witness of C2: the spec's request in a world where only MAIL_PASSWORD is
unset. -/
theorem triggerEmail_incomplete_config_witness :
    noPasswordWorld.getenv "MAIL_HOST" ≠ "" ∧ noPasswordWorld.getenv "MAIL_PASSWORD" = "" ∧
    (triggerEmail helloEvent noPasswordWorld).1 = (⟨500, "Internal server error"⟩, none) :=
  ⟨by decide, by decide,
   triggerEmail_incomplete_config helloEvent noPasswordWorld "a@b.com" "Hi" "<p>Hello</p>"
     rfl rfl rfl (Or.inr (Or.inr (Or.inr (Or.inl (by decide)))))⟩

/-! ## Outcome of the send (C3, C4) -/

/-- Every path of `triggerEmail` that does not end in the successful return
gives a status other than 200. -/
theorem triggerEmail_status_200 {event : Event} {w : World}
    (h : (triggerEmail event w).1.1.StatusCode = 200) :
    ∃ t sj b, event.index "to" = some (Value.str t) ∧
      event.index "subject" = some (Value.str sj) ∧
      event.index "body" = some (Value.str b) ∧
      w.getenv "MAIL_HOST" ≠ "" ∧ w.getenv "MAIL_PORT" ≠ "" ∧
      w.getenv "MAIL_USERNAME" ≠ "" ∧ w.getenv "MAIL_PASSWORD" ≠ "" ∧
      w.getenv "MAIL_FROM" ≠ "" ∧
      (SendEmail (w.getenv "MAIL_HOST") (w.getenv "MAIL_PORT") (w.getenv "MAIL_USERNAME")
        (w.getenv "MAIL_PASSWORD") (w.getenv "MAIL_FROM") t sj b w).1 = none := by
  cases ht : assertString (event.index "to") with
  | none => simp [triggerEmail, ht] at h
  | some t =>
  cases hs : assertString (event.index "subject") with
  | none => simp [triggerEmail, ht, hs] at h
  | some sj =>
  cases hb : assertString (event.index "body") with
  | none => simp [triggerEmail, ht, hs, hb] at h
  | some b =>
  have ht1 := assertString_eq_some ht
  have hs1 := assertString_eq_some hs
  have hb1 := assertString_eq_some hb
  rw [triggerEmail_of_fields ht1 hs1 hb1] at h
  by_cases h1 : w.getenv "MAIL_HOST" = ""
  · simp [h1] at h
  by_cases h2 : w.getenv "MAIL_PORT" = ""
  · simp [h1, h2] at h
  by_cases h3 : w.getenv "MAIL_USERNAME" = "" ∨ w.getenv "MAIL_PASSWORD" = ""
      ∨ w.getenv "MAIL_FROM" = ""
  · simp [h1, h2, h3] at h
  simp only [h1, h2, h3, if_false] at h
  refine ⟨t, sj, b, ht1, hs1, hb1, h1, h2, ?_, ?_, ?_, ?_⟩
  · exact fun hu => h3 (Or.inl hu)
  · exact fun hp => h3 (Or.inr (Or.inl hp))
  · exact fun hf => h3 (Or.inr (Or.inr hf))
  · cases hse : SendEmail (w.getenv "MAIL_HOST") (w.getenv "MAIL_PORT")
        (w.getenv "MAIL_USERNAME") (w.getenv "MAIL_PASSWORD") (w.getenv "MAIL_FROM") t sj b w with
    | mk e w1 =>
      cases e with
      | none => rfl
      | some err => rw [hse] at h; simp at h

/-- C3: with string `to`, `subject`, `body` and the five relay settings
non-empty, a transport call that succeeds gives exactly
(200, "Email sent successfully!") with a nil error; conversely a status of 200
is returned only when the three fields are strings, the five settings are
non-empty and the transport call succeeded. -/
theorem triggerEmail_success (event : Event) (w : World) :
    (∀ t sj b, event.index "to" = some (Value.str t) →
      event.index "subject" = some (Value.str sj) →
      event.index "body" = some (Value.str b) →
      w.getenv "MAIL_HOST" ≠ "" → w.getenv "MAIL_PORT" ≠ "" →
      w.getenv "MAIL_USERNAME" ≠ "" → w.getenv "MAIL_PASSWORD" ≠ "" →
      w.getenv "MAIL_FROM" ≠ "" →
      w.sendMail ⟨w.getenv "MAIL_HOST" ++ ":" ++ w.getenv "MAIL_PORT",
        ⟨"", w.getenv "MAIL_USERNAME", w.getenv "MAIL_PASSWORD", w.getenv "MAIL_HOST"⟩,
        w.getenv "MAIL_FROM", [t],
        "To: " ++ t ++ "\r\n" ++ "From: " ++ w.getenv "MAIL_FROM" ++ "\r\n" ++
        "Subject: " ++ sj ++ "\r\n" ++ "MIME-Version: 1.0\r\n" ++
        "Content-Type: text/html; charset=\"UTF-8\"\r\n" ++ "\r\n" ++ b ++ "\r\n"⟩ = none →
      (triggerEmail event w).1 = (⟨200, "Email sent successfully!"⟩, none)) ∧
    ((triggerEmail event w).1.1.StatusCode = 200 →
      ∃ t sj b, event.index "to" = some (Value.str t) ∧
        event.index "subject" = some (Value.str sj) ∧
        event.index "body" = some (Value.str b) ∧
        w.getenv "MAIL_HOST" ≠ "" ∧ w.getenv "MAIL_PORT" ≠ "" ∧
        w.getenv "MAIL_USERNAME" ≠ "" ∧ w.getenv "MAIL_PASSWORD" ≠ "" ∧
        w.getenv "MAIL_FROM" ≠ "" ∧
        w.sendMail ⟨w.getenv "MAIL_HOST" ++ ":" ++ w.getenv "MAIL_PORT",
          ⟨"", w.getenv "MAIL_USERNAME", w.getenv "MAIL_PASSWORD", w.getenv "MAIL_HOST"⟩,
          w.getenv "MAIL_FROM", [t],
          "To: " ++ t ++ "\r\n" ++ "From: " ++ w.getenv "MAIL_FROM" ++ "\r\n" ++
          "Subject: " ++ sj ++ "\r\n" ++ "MIME-Version: 1.0\r\n" ++
          "Content-Type: text/html; charset=\"UTF-8\"\r\n" ++ "\r\n" ++ b ++ "\r\n"⟩ = none) := by
  constructor
  · intro t sj b ht hs hb hhost hport huser hpass hfrom hok
    rw [triggerEmail_of_checks ht hs hb hhost hport huser hpass hfrom, SendEmail_eq, hok]
    rfl
  · intro h
    obtain ⟨t, sj, b, ht, hs, hb, hhost, hport, huser, hpass, hfrom, hok⟩ :=
      triggerEmail_status_200 h
    refine ⟨t, sj, b, ht, hs, hb, hhost, hport, huser, hpass, hfrom, ?_⟩
    rw [SendEmail_eq] at hok
    exact Option.map_eq_none.mp hok

/-- Witness of C3: the spec's scenario, a complete configuration and a transport
that accepts the message, in both directions. -/
theorem triggerEmail_success_witness :
    (triggerEmail helloEvent okWorld).1 = (⟨200, "Email sent successfully!"⟩, none) ∧
    ∃ t sj b, helloEvent.index "to" = some (Value.str t) ∧
      helloEvent.index "subject" = some (Value.str sj) ∧
      helloEvent.index "body" = some (Value.str b) ∧
      okWorld.getenv "MAIL_HOST" ≠ "" ∧ okWorld.getenv "MAIL_PORT" ≠ "" ∧
      okWorld.getenv "MAIL_USERNAME" ≠ "" ∧ okWorld.getenv "MAIL_PASSWORD" ≠ "" ∧
      okWorld.getenv "MAIL_FROM" ≠ "" ∧
      okWorld.sendMail ⟨okWorld.getenv "MAIL_HOST" ++ ":" ++ okWorld.getenv "MAIL_PORT",
        ⟨"", okWorld.getenv "MAIL_USERNAME", okWorld.getenv "MAIL_PASSWORD",
          okWorld.getenv "MAIL_HOST"⟩,
        okWorld.getenv "MAIL_FROM", [t],
        "To: " ++ t ++ "\r\n" ++ "From: " ++ okWorld.getenv "MAIL_FROM" ++ "\r\n" ++
        "Subject: " ++ sj ++ "\r\n" ++ "MIME-Version: 1.0\r\n" ++
        "Content-Type: text/html; charset=\"UTF-8\"\r\n" ++ "\r\n" ++ b ++ "\r\n"⟩ = none :=
  ⟨(triggerEmail_success helloEvent okWorld).1 "a@b.com" "Hi" "<p>Hello</p>" rfl rfl rfl
      (by decide) (by decide) (by decide) (by decide) (by decide) rfl,
   (triggerEmail_success helloEvent okWorld).2 (by decide)⟩

/-- C4: with string fields and a complete configuration, a send that fails with
any cause whatsoever gives exactly (500, "Error sending email") with a nil
error: the same value for every cause, built from no part of it. -/
theorem triggerEmail_transport_failure (event : Event) (w : World) (t sj b cause : String)
    (ht : event.index "to" = some (Value.str t))
    (hs : event.index "subject" = some (Value.str sj))
    (hb : event.index "body" = some (Value.str b))
    (hhost : w.getenv "MAIL_HOST" ≠ "") (hport : w.getenv "MAIL_PORT" ≠ "")
    (huser : w.getenv "MAIL_USERNAME" ≠ "") (hpass : w.getenv "MAIL_PASSWORD" ≠ "")
    (hfrom : w.getenv "MAIL_FROM" ≠ "")
    (hfail : w.sendMail ⟨w.getenv "MAIL_HOST" ++ ":" ++ w.getenv "MAIL_PORT",
        ⟨"", w.getenv "MAIL_USERNAME", w.getenv "MAIL_PASSWORD", w.getenv "MAIL_HOST"⟩,
        w.getenv "MAIL_FROM", [t],
        "To: " ++ t ++ "\r\n" ++ "From: " ++ w.getenv "MAIL_FROM" ++ "\r\n" ++
        "Subject: " ++ sj ++ "\r\n" ++ "MIME-Version: 1.0\r\n" ++
        "Content-Type: text/html; charset=\"UTF-8\"\r\n" ++ "\r\n" ++ b ++ "\r\n"⟩
      = some cause) :
    (triggerEmail event w).1 = (⟨500, "Error sending email"⟩, none) := by
  rw [triggerEmail_of_checks ht hs hb hhost hport huser hpass hfrom, SendEmail_eq, hfail]
  rfl

/-- Witness of C4: the spec's request against a transport that refuses the
connection. -/
theorem triggerEmail_transport_failure_witness :
    (triggerEmail helloEvent failWorld).1 = (⟨500, "Error sending email"⟩, none) :=
  triggerEmail_transport_failure helloEvent failWorld "a@b.com" "Hi" "<p>Hello</p>"
    "connection refused" rfl rfl rfl (by decide) (by decide) (by decide) (by decide)
    (by decide) rfl

/-! ## Send attempts (C5) -/

/-- The world a failed check leaves behind has the transport log it started
with. -/
theorem triggerEmail_no_send {event : Event} {w : World}
    (hbad : (∀ s, event.index "to" ≠ some (Value.str s)) ∨
      (∀ s, event.index "subject" ≠ some (Value.str s)) ∨
      (∀ s, event.index "body" ≠ some (Value.str s)) ∨
      w.getenv "MAIL_HOST" = "" ∨ w.getenv "MAIL_PORT" = "" ∨
      w.getenv "MAIL_USERNAME" = "" ∨ w.getenv "MAIL_PASSWORD" = "" ∨
      w.getenv "MAIL_FROM" = "") :
    (triggerEmail event w).2.sent = w.sent := by
  cases ht : assertString (event.index "to") with
  | none => simp [triggerEmail, ht]
  | some t =>
  cases hs : assertString (event.index "subject") with
  | none => simp [triggerEmail, ht, hs]
  | some sj =>
  cases hb : assertString (event.index "body") with
  | none => simp [triggerEmail, ht, hs, hb]
  | some b =>
  have ht1 := assertString_eq_some ht
  have hs1 := assertString_eq_some hs
  have hb1 := assertString_eq_some hb
  rw [triggerEmail_of_fields ht1 hs1 hb1]
  by_cases h1 : w.getenv "MAIL_HOST" = ""
  · simp [h1, Println]
  by_cases h2 : w.getenv "MAIL_PORT" = ""
  · simp [h1, h2, Println]
  by_cases h3 : w.getenv "MAIL_USERNAME" = "" ∨ w.getenv "MAIL_PASSWORD" = ""
      ∨ w.getenv "MAIL_FROM" = ""
  · simp [h1, h2, h3, Println]
  rcases hbad with h | h | h | h | h | h
  · exact absurd ht1 (h t)
  · exact absurd hs1 (h sj)
  · exact absurd hb1 (h b)
  · exact absurd h h1
  · exact absurd h h2
  · exact absurd h h3

/-- The world a request that passes all six checks leaves behind has one more
entry in its transport log, the call `SendEmail` builds. -/
theorem triggerEmail_one_send {event : Event} {w : World} {t sj b : String}
    (ht : event.index "to" = some (Value.str t))
    (hs : event.index "subject" = some (Value.str sj))
    (hb : event.index "body" = some (Value.str b))
    (hhost : w.getenv "MAIL_HOST" ≠ "") (hport : w.getenv "MAIL_PORT" ≠ "")
    (huser : w.getenv "MAIL_USERNAME" ≠ "") (hpass : w.getenv "MAIL_PASSWORD" ≠ "")
    (hfrom : w.getenv "MAIL_FROM" ≠ "") :
    (triggerEmail event w).2.sent =
      (SendEmail (w.getenv "MAIL_HOST") (w.getenv "MAIL_PORT") (w.getenv "MAIL_USERNAME")
        (w.getenv "MAIL_PASSWORD") (w.getenv "MAIL_FROM") t sj b w).2.sent := by
  rw [triggerEmail_of_checks ht hs hb hhost hport huser hpass hfrom, SendEmail_eq]
  cases w.sendMail _ <;> rfl

/-- C5: when all six checks pass (three string fields, non-empty host,
non-empty port, non-empty username, password and from-address) the transport
log grows by exactly the one call that `SendEmail` makes on (MAIL_HOST,
MAIL_PORT, MAIL_USERNAME, MAIL_PASSWORD, MAIL_FROM, to, subject, body); when any
check fails the log is unchanged; in no case does it grow by more than one. -/
theorem triggerEmail_send_attempts (event : Event) (w : World) :
    (∀ t sj b, event.index "to" = some (Value.str t) →
      event.index "subject" = some (Value.str sj) →
      event.index "body" = some (Value.str b) →
      w.getenv "MAIL_HOST" ≠ "" → w.getenv "MAIL_PORT" ≠ "" →
      w.getenv "MAIL_USERNAME" ≠ "" → w.getenv "MAIL_PASSWORD" ≠ "" →
      w.getenv "MAIL_FROM" ≠ "" →
      (triggerEmail event w).2.sent =
        (SendEmail (w.getenv "MAIL_HOST") (w.getenv "MAIL_PORT") (w.getenv "MAIL_USERNAME")
          (w.getenv "MAIL_PASSWORD") (w.getenv "MAIL_FROM") t sj b w).2.sent ∧
      (triggerEmail event w).2.sent.length = w.sent.length + 1 ∧
      (triggerEmail event w).2.sent.take w.sent.length = w.sent) ∧
    (((∀ s, event.index "to" ≠ some (Value.str s)) ∨
      (∀ s, event.index "subject" ≠ some (Value.str s)) ∨
      (∀ s, event.index "body" ≠ some (Value.str s)) ∨
      w.getenv "MAIL_HOST" = "" ∨ w.getenv "MAIL_PORT" = "" ∨
      w.getenv "MAIL_USERNAME" = "" ∨ w.getenv "MAIL_PASSWORD" = "" ∨
      w.getenv "MAIL_FROM" = "") →
      (triggerEmail event w).2.sent = w.sent) ∧
    (triggerEmail event w).2.sent.length ≤ w.sent.length + 1 := by
  have hone : ∀ t sj b, event.index "to" = some (Value.str t) →
      event.index "subject" = some (Value.str sj) →
      event.index "body" = some (Value.str b) →
      w.getenv "MAIL_HOST" ≠ "" → w.getenv "MAIL_PORT" ≠ "" →
      w.getenv "MAIL_USERNAME" ≠ "" → w.getenv "MAIL_PASSWORD" ≠ "" →
      w.getenv "MAIL_FROM" ≠ "" →
      (triggerEmail event w).2.sent =
        (SendEmail (w.getenv "MAIL_HOST") (w.getenv "MAIL_PORT") (w.getenv "MAIL_USERNAME")
          (w.getenv "MAIL_PASSWORD") (w.getenv "MAIL_FROM") t sj b w).2.sent ∧
      (triggerEmail event w).2.sent.length = w.sent.length + 1 ∧
      (triggerEmail event w).2.sent.take w.sent.length = w.sent := by
    intro t sj b ht hs hb hhost hport huser hpass hfrom
    have h := triggerEmail_one_send ht hs hb hhost hport huser hpass hfrom
    refine ⟨h, ?_, ?_⟩
    · rw [h, SendEmail_eq]; simp
    · rw [h, SendEmail_eq]; simp
  refine ⟨hone, triggerEmail_no_send, ?_⟩
  by_cases hbad : (∀ s, event.index "to" ≠ some (Value.str s)) ∨
      (∀ s, event.index "subject" ≠ some (Value.str s)) ∨
      (∀ s, event.index "body" ≠ some (Value.str s)) ∨
      w.getenv "MAIL_HOST" = "" ∨ w.getenv "MAIL_PORT" = "" ∨
      w.getenv "MAIL_USERNAME" = "" ∨ w.getenv "MAIL_PASSWORD" = "" ∨
      w.getenv "MAIL_FROM" = ""
  · rw [triggerEmail_no_send hbad]; exact Nat.le_succ _
  · simp only [not_or, not_forall, not_not] at hbad
    obtain ⟨⟨t, ht⟩, ⟨sj, hs⟩, ⟨b, hb⟩, hhost, hport, huser, hpass, hfrom⟩ := hbad
    exact le_of_eq (hone t sj b ht hs hb hhost hport huser hpass hfrom).2.1

/-- Witness of C5: the spec's request makes one send with a complete
configuration (whether the transport accepts or refuses it) and none when
MAIL_PASSWORD is unset or `to` is missing. -/
theorem triggerEmail_send_attempts_witness :
    (triggerEmail helloEvent okWorld).2.sent.length = 1 ∧
    (triggerEmail helloEvent failWorld).2.sent.length = 1 ∧
    (triggerEmail helloEvent noPasswordWorld).2.sent = [] ∧
    (triggerEmail noToEvent okWorld).2.sent = [] :=
  ⟨((triggerEmail_send_attempts helloEvent okWorld).1 "a@b.com" "Hi" "<p>Hello</p>" rfl rfl rfl
      (by decide) (by decide) (by decide) (by decide) (by decide)).2.1,
   ((triggerEmail_send_attempts helloEvent failWorld).1 "a@b.com" "Hi" "<p>Hello</p>" rfl rfl rfl
      (by decide) (by decide) (by decide) (by decide) (by decide)).2.1,
   (triggerEmail_send_attempts helloEvent noPasswordWorld).2.1
      (Or.inr (Or.inr (Or.inr (Or.inr (Or.inr (Or.inr (Or.inl (by decide)))))))),
   (triggerEmail_send_attempts noToEvent okWorld).2.1
      (Or.inl (by intro s; simp [noToEvent, Event.index, List.lookup]))⟩

/-! ## The six possible results (C6, C7, C9) -/

/-- Every call of `triggerEmail` returns one of six values, each with a nil
error. -/
theorem triggerEmail_results (event : Event) (w : World) :
    (triggerEmail event w).1 ∈
      [((⟨400, "Missing 'to' field"⟩, none) : Response × Option String),
       (⟨400, "Missing 'subject' field"⟩, none),
       (⟨400, "Missing 'body' field"⟩, none),
       (⟨500, "Internal server error"⟩, none),
       (⟨500, "Error sending email"⟩, none),
       (⟨200, "Email sent successfully!"⟩, none)] := by
  cases ht : assertString (event.index "to") with
  | none => simp [triggerEmail, ht]
  | some t =>
  cases hs : assertString (event.index "subject") with
  | none => simp [triggerEmail, ht, hs]
  | some sj =>
  cases hb : assertString (event.index "body") with
  | none => simp [triggerEmail, ht, hs, hb]
  | some b =>
  rw [triggerEmail_of_fields (assertString_eq_some ht) (assertString_eq_some hs)
    (assertString_eq_some hb)]
  by_cases h1 : w.getenv "MAIL_HOST" = ""
  · simp [h1]
  by_cases h2 : w.getenv "MAIL_PORT" = ""
  · simp [h1, h2]
  by_cases h3 : w.getenv "MAIL_USERNAME" = "" ∨ w.getenv "MAIL_PASSWORD" = ""
      ∨ w.getenv "MAIL_FROM" = ""
  · simp [h1, h2, h3]
  simp only [h1, h2, h3, if_false]
  rw [SendEmail_eq]
  cases w.sendMail _ <;> simp

/-- The error component of `triggerEmail` is nil. -/
theorem triggerEmail_err_nil (event : Event) (w : World) :
    (triggerEmail event w).1.2 = none := by
  have h := triggerEmail_results event w
  simp only [List.mem_cons, List.mem_singleton, List.not_mem_nil, or_false] at h
  rcases h with h | h | h | h | h | h <;> rw [h]

/-- C6: for every request and every world (environment and transport outcome)
the Response of `triggerEmail` has StatusCode 200, 400 or 500 and a non-empty
Body. -/
theorem triggerEmail_status_and_body (event : Event) (w : World) :
    ((triggerEmail event w).1.1.StatusCode = 200 ∨
      (triggerEmail event w).1.1.StatusCode = 400 ∨
      (triggerEmail event w).1.1.StatusCode = 500) ∧
    (triggerEmail event w).1.1.Body ≠ "" := by
  have h := triggerEmail_results event w
  simp only [List.mem_cons, List.mem_singleton, List.not_mem_nil, or_false] at h
  rcases h with h | h | h | h | h | h <;> rw [h] <;> decide

/-- C7: for every context and every event, `LambdaHandler` returns exactly what
`triggerEmail` returns on the event (the same Response, nothing around it, the
same effects), whatever the context, and its error component is nil. -/
theorem LambdaHandler_eq_triggerEmail {Ctx : Type} (ctx : Ctx) (event : Event) (w : World) :
    LambdaHandler ctx event w = triggerEmail event w ∧
    (LambdaHandler ctx event w).1.2 = none ∧
    (∀ {Ctx2 : Type} (ctx2 : Ctx2), LambdaHandler ctx2 event w = LambdaHandler ctx event w) :=
  ⟨rfl, triggerEmail_err_nil event w, fun _ => rfl⟩

/-! ## The message handed to the transport (C8) -/

/-- C8 as stated fails: for the spec's request the message handed to the
transport is not the header lines, a blank line and the body alone. -/
theorem SendEmail_message_not_spec :
    (SendEmail "smtp.example.com" "587" "user" "secret" "noreply@example.com" "a@b.com" "Hi"
        "<p>Hello</p>" okWorld).2.sent.map SendMailCall.msg
      ≠ [specMessage "a@b.com" "noreply@example.com" "Hi" "<p>Hello</p>"] := by
  decide

/-- C8 amended: for all strings, `SendEmail` makes one transport call, to the
address host:port, authenticated by username and password against the host, with
sender `from`, the recipient list holding exactly `to`, and a message that is
the header lines `To`, `From`, `Subject`, `MIME-Version: 1.0`,
`Content-Type: text/html; charset="UTF-8"` (each ended by CRLF, in that order),
a blank line, the body verbatim and one final CRLF. -/
theorem SendEmail_call (smtpServer smtpPort smtpUser smtpPass fromEmail toEmail subject body : String)
    (w : World) :
    (SendEmail smtpServer smtpPort smtpUser smtpPass fromEmail toEmail subject body w).2.sent =
      w.sent ++ [⟨smtpServer ++ ":" ++ smtpPort, ⟨"", smtpUser, smtpPass, smtpServer⟩,
        fromEmail, [toEmail], specMessage toEmail fromEmail subject body ++ "\r\n"⟩] := by
  rw [SendEmail_eq]
  rfl

/-! ## The HTTP entry point (C9) -/

/-- C9: when decoding fails `httpHandler` answers 400 with
the object "message": "invalid request or missing fields" and leaves the world
untouched (no dispatch); that text differs from every Body `triggerEmail` can
return; when decoding gives the map `m` the status is the StatusCode of
`triggerEmail` on `m`, the body is the object "message": Body, and the effects
are those of `triggerEmail`. -/
theorem httpHandler_mirrors (w : World) :
    httpHandler none w = (⟨400, [("message", "invalid request or missing fields")]⟩, w) ∧
    (∀ m w1, (triggerEmail m w1).1.1.Body ≠ "invalid request or missing fields") ∧
    (∀ m, httpHandler (some m) w =
      (⟨(triggerEmail m w).1.1.StatusCode, [("message", (triggerEmail m w).1.1.Body)]⟩,
        (triggerEmail m w).2)) := by
  refine ⟨rfl, ?_, ?_⟩
  · intro m w1
    have h := triggerEmail_results m w1
    simp only [List.mem_cons, List.mem_singleton, List.not_mem_nil, or_false] at h
    rcases h with h | h | h | h | h | h <;> rw [h] <;> decide
  · intro m
    have herr := triggerEmail_err_nil m w
    rcases hr : triggerEmail m w with ⟨⟨response, err⟩, w1⟩
    rw [hr] at herr
    simp only at herr
    subst herr
    simp only [httpHandler, hr]

/-! ## Fields are checked by type only (C10) -/

/-- C10: when `to`, `subject` and `body` are strings, whatever their content
(the empty string included), and the configuration is complete, `triggerEmail`
does not answer 400 and makes one send attempt, whose recipient list is the
`to` string as given. -/
theorem triggerEmail_accepts_any_strings (event : Event) (w : World) (t sj b : String)
    (ht : event.index "to" = some (Value.str t))
    (hs : event.index "subject" = some (Value.str sj))
    (hb : event.index "body" = some (Value.str b))
    (hhost : w.getenv "MAIL_HOST" ≠ "") (hport : w.getenv "MAIL_PORT" ≠ "")
    (huser : w.getenv "MAIL_USERNAME" ≠ "") (hpass : w.getenv "MAIL_PASSWORD" ≠ "")
    (hfrom : w.getenv "MAIL_FROM" ≠ "") :
    (triggerEmail event w).1.1.StatusCode ≠ 400 ∧
    ∃ call, (triggerEmail event w).2.sent = w.sent ++ [call] ∧ call.recipients = [t] := by
  rw [triggerEmail_of_checks ht hs hb hhost hport huser hpass hfrom, SendEmail_eq]
  cases w.sendMail _ <;> exact ⟨by simp, _, rfl, rfl⟩

/-- Witness of C10: three empty strings pass validation; the send is attempted
with the empty recipient address and the answer is 200. -/
theorem triggerEmail_accepts_any_strings_witness :
    (triggerEmail blankEvent okWorld).1.1.StatusCode = 200 ∧
    (triggerEmail blankEvent okWorld).1.1.StatusCode ≠ 400 ∧
    ∃ call, (triggerEmail blankEvent okWorld).2.sent = okWorld.sent ++ [call] ∧
      call.recipients = [""] :=
  ⟨by decide, triggerEmail_accepts_any_strings blankEvent okWorld "" "" "" rfl rfl rfl
    (by decide) (by decide) (by decide) (by decide) (by decide)⟩

end GoSmtp
